import Mathlib

/-!
# Verification of the zero-shot classification pipeline

Shallow embedding of `src/pipelines/zero_shot_classification.rs` from the
`rust-bert` repository, together with proofs about its behaviour.

Modelling conventions:
* Machine floats are modelled by real numbers (`ℝ`); `softmax` uses `Real.exp`.
* Tensors are modelled by functions or lists: the flat `[batch, num_classes]`
  logits tensor is a function `Nat → Nat → ℝ` (row index, class index), and the
  row-major `view((N, L, -1))` reshape is explicit index arithmetic.
* The underlying neural networks, tokenizer internals, file resources and
  devices are opaque external collaborators (exactly the boundary drawn by the
  spec); they appear as abstract function parameters.
* A Rust panic (`unwrap` / `expect` on a missing value) is modelled by an
  `Option` result being `none`; a recoverable `Result::Err` is modelled by
  `Except.error`.
-/

/-- Modelled from the spec: `ModelType` is defined in `pipelines/common.rs`,
which is not among the sources under verification.  The spec names the nine
supported architecture families, and the catch-all arm of
`ZeroShotClassificationOption::new` shows that further families exist which
have no zero-shot classification adapter; `Electra` and `T5` stand for such
unsupported families. -/
inductive ModelType
  | Bart
  | Bert
  | DistilBert
  | MobileBert
  | Roberta
  | XLMRoberta
  | Albert
  | XLNet
  | Longformer
  | Electra
  | T5
deriving DecidableEq, Repr

/-- Modelled from the spec: `ConfigOption` (also from `pipelines/common.rs`,
not among the sources) is the tagged union of architecture-configuration
shapes.  Only the constructor tag matters for the dispatch performed by
`ZeroShotClassificationOption::new`; the configuration fields are opaque. -/
inductive ConfigOption
  | Bart
  | Bert
  | DistilBert
  | MobileBert
  | Albert
  | XLNet
  | Longformer
deriving DecidableEq, Repr

/-- The `RustBertError` variant used by this file (`InvalidConfigurationError`). -/
inductive RustBertError
  | InvalidConfigurationError (msg : String)
deriving DecidableEq, Repr

/-- Debug rendering of a `ModelType`, standing for the `{:?}` formatting used
in the catch-all error message of `ZeroShotClassificationOption::new`. -/
def ModelType.debugName : ModelType → String
  | .Bart => "Bart"
  | .Bert => "Bert"
  | .DistilBert => "DistilBert"
  | .MobileBert => "MobileBert"
  | .Roberta => "Roberta"
  | .XLMRoberta => "XLMRoberta"
  | .Albert => "Albert"
  | .XLNet => "XLNet"
  | .Longformer => "Longformer"
  | .Electra => "Electra"
  | .T5 => "T5"

/-- Embedding of `enum ZeroShotClassificationOption`.  Each variant of the
source enum carries the loaded network of one architecture family; those
networks are opaque external collaborators and are elided here, so the
variants are nullary.  Note that `Roberta` and `XLMRoberta` are distinct
variants even though both wrap a `RobertaForSequenceClassification`. -/
inductive ZeroShotClassificationOption
  | Bart
  | Bert
  | DistilBert
  | MobileBert
  | Roberta
  | XLMRoberta
  | Albert
  | XLNet
  | Longformer
deriving DecidableEq, Repr

/-- Embedding of `ZeroShotClassificationOption::new`: dispatch on
`model_type`, checking that the supplied configuration has the shape the
requested architecture family requires (an `if let` per arm in the source).
The error messages are the source's strings verbatim, including the reused
Roberta message in the `XLMRoberta` arm and the reused Albert message in the
`XLNet` arm. -/
def ZeroShotClassificationOption.new (model_type : ModelType) (config : ConfigOption) :
    Except RustBertError ZeroShotClassificationOption :=
  match model_type with
  | ModelType.Bart =>
    match config with
    | ConfigOption.Bart => Except.ok ZeroShotClassificationOption.Bart
    | _ => Except.error (RustBertError.InvalidConfigurationError
        "You can only supply a BartConfig for Bart!")
  | ModelType.Bert =>
    match config with
    | ConfigOption.Bert => Except.ok ZeroShotClassificationOption.Bert
    | _ => Except.error (RustBertError.InvalidConfigurationError
        "You can only supply a BertConfig for Bert!")
  | ModelType.DistilBert =>
    match config with
    | ConfigOption.DistilBert => Except.ok ZeroShotClassificationOption.DistilBert
    | _ => Except.error (RustBertError.InvalidConfigurationError
        "You can only supply a DistilBertConfig for DistilBert!")
  | ModelType.MobileBert =>
    match config with
    | ConfigOption.MobileBert => Except.ok ZeroShotClassificationOption.MobileBert
    | _ => Except.error (RustBertError.InvalidConfigurationError
        "You can only supply a MobileBertConfig for MobileBert!")
  | ModelType.Roberta =>
    match config with
    | ConfigOption.Bert => Except.ok ZeroShotClassificationOption.Roberta
    | _ => Except.error (RustBertError.InvalidConfigurationError
        "You can only supply a BertConfig for Roberta!")
  | ModelType.XLMRoberta =>
    match config with
    | ConfigOption.Bert => Except.ok ZeroShotClassificationOption.XLMRoberta
    | _ => Except.error (RustBertError.InvalidConfigurationError
        "You can only supply a BertConfig for Roberta!")
  | ModelType.Albert =>
    match config with
    | ConfigOption.Albert => Except.ok ZeroShotClassificationOption.Albert
    | _ => Except.error (RustBertError.InvalidConfigurationError
        "You can only supply an AlbertConfig for Albert!")
  | ModelType.XLNet =>
    match config with
    | ConfigOption.XLNet => Except.ok ZeroShotClassificationOption.XLNet
    | _ => Except.error (RustBertError.InvalidConfigurationError
        "You can only supply an AlbertConfig for Albert!")
  | ModelType.Longformer =>
    match config with
    | ConfigOption.Longformer => Except.ok ZeroShotClassificationOption.Longformer
    | _ => Except.error (RustBertError.InvalidConfigurationError
        "You can only supply a LongformerConfig for Longformer!")
  | other => Except.error (RustBertError.InvalidConfigurationError
      ("Zero shot classification not implemented for " ++ other.debugName ++ "!"))

/-- Embedding of `ZeroShotClassificationOption::model_type`, arm for arm;
in particular the `XLMRoberta` arm of the source returns `ModelType::Roberta`. -/
def ZeroShotClassificationOption.model_type : ZeroShotClassificationOption → ModelType
  | .Bart => ModelType.Bart
  | .Bert => ModelType.Bert
  | .Roberta => ModelType.Roberta
  | .XLMRoberta => ModelType.Roberta
  | .DistilBert => ModelType.DistilBert
  | .MobileBert => ModelType.MobileBert
  | .Albert => ModelType.Albert
  | .XLNet => ModelType.XLNet
  | .Longformer => ModelType.Longformer

/-- The configuration shape accepted by each model type in
`ZeroShotClassificationOption::new` (`none` for model types with no zero-shot
adapter).  This table restates the correspondence the source's match arms
implement and is used to express the configuration-mismatch property. -/
def expectedConfig : ModelType → Option ConfigOption
  | ModelType.Bart => some ConfigOption.Bart
  | ModelType.Bert => some ConfigOption.Bert
  | ModelType.DistilBert => some ConfigOption.DistilBert
  | ModelType.MobileBert => some ConfigOption.MobileBert
  | ModelType.Roberta => some ConfigOption.Bert
  | ModelType.XLMRoberta => some ConfigOption.Bert
  | ModelType.Albert => some ConfigOption.Albert
  | ModelType.XLNet => some ConfigOption.XLNet
  | ModelType.Longformer => some ConfigOption.Longformer
  | _ => none

/-- Whether an outcome of `ZeroShotClassificationOption::new` is the named
configuration-mismatch error. -/
def isInvalidConfigError : Except RustBertError ZeroShotClassificationOption → Bool
  | Except.error (RustBertError.InvalidConfigurationError _) => true
  | _ => false

/-- Embedding of the `Label` record.  `score` is a real number (floats are
modelled by `ℝ`). -/
structure Label where
  text : String
  score : ℝ
  id : Int
  sentence : Nat

instance : Inhabited Label := ⟨⟨"", 0, 0, 0⟩⟩

/-- The tokenizer collaborator, specified at its interface boundary:
`tokenize` is `encode_pair_list` restricted to a single premise/hypothesis
pair (the truncation strategy and maximum length are folded into the opaque
function), and `padId` is `get_pad_id()`. -/
structure TokenizerOption where
  tokenize : String → String → List Int
  padId : Option Int

/-- Embedding of the model struct: the tokenizer and the selected architecture
adapter (the `VarStore` of device-resident weights is an opaque collaborator
and is elided). -/
structure ZeroShotClassificationModel where
  tokenizer : TokenizerOption
  zero_shot_classifier : ZeroShotClassificationOption

/-- Embedding of `ZeroShotClassificationModel::new`: resource resolution and
weight loading are external collaborators; what remains of the construction
path is building the tokenizer and dispatching
`ZeroShotClassificationOption::new` on the model type and configuration.
Note that the tokenizer's pad id is never inspected here. -/
def ZeroShotClassificationModel.new (model_type : ModelType) (tokenizer : TokenizerOption)
    (model_config : ConfigOption) : Except RustBertError ZeroShotClassificationModel :=
  (ZeroShotClassificationOption.new model_type model_config).map
    (fun z => { tokenizer := tokenizer, zero_shot_classifier := z })

/-- The label-sentence list of `prepare_for_model`: apply the hypothesis
template when supplied, else the fixed default template
`This example is about {}.` of the source. -/
def labelSentences (template : Option (String → String)) (labels : List String) : List String :=
  match template with
  | some function => labels.map (fun label => function label)
  | none => labels.map (fun label => "This example is about " ++ label ++ ".")

/-- The `(input, label_sentence)` cross-product of `prepare_for_model`,
built exactly as in the source: `flat_map` over the inputs of a `map` over the
label sentences (input-major, label-minor order). -/
def textPairList (inputs label_sentences : List String) : List (String × String) :=
  inputs.flatMap (fun input => label_sentences.map (fun ls => (input, ls)))

/-- `Iterator::max` over a list of naturals: `none` on the empty list, the
maximum otherwise (modelling `tokenized_input.iter().map(len).max()`). -/
def listMax? : List Nat → Option Nat
  | [] => none
  | x :: xs => some (xs.foldl Nat.max x)

/-- The tokenized batch of `prepare_for_model`: one token-id sequence per
`(input, label_sentence)` pair, in cross-product order. -/
def tokenizedBatch (tok : TokenizerOption) (inputs labels : List String)
    (template : Option (String → String)) : List (List Int) :=
  (textPairList inputs (labelSentences template labels)).map
    (fun pr => tok.tokenize pr.1 pr.2)

/-- The batch's actual maximum post-truncation token length (`max_len` in the
source; `0` is an arbitrary default for the empty batch, on which the source
panics before using the value). -/
def batchMaxLen (tok : TokenizerOption) (inputs labels : List String)
    (template : Option (String → String)) : Nat :=
  (listMax? ((tokenizedBatch tok inputs labels template).map List.length)).getD 0

/-- The padded token batch: every sequence right-padded with the pad id up to
the batch maximum length. -/
def paddedBatch (pad : Int) (tok : TokenizerOption) (inputs labels : List String)
    (template : Option (String → String)) : List (List Int) :=
  (tokenizedBatch tok inputs labels template).map
    (fun t => t ++ List.replicate (batchMaxLen tok inputs labels template - t.length) pad)

/-- The attention mask: element-wise `token id != pad id` over the padded
batch (the source's `tensor.ne(pad).to_kind(Bool)`). -/
def attentionMask (pad : Int) (tok : TokenizerOption) (inputs labels : List String)
    (template : Option (String → String)) : List (List Bool) :=
  (paddedBatch pad tok inputs labels template).map (fun t => t.map (fun x => x != pad))

/-- Embedding of `ZeroShotClassificationModel::prepare_for_model`.  The two
panic sites of the source are modelled by `none`: `max().unwrap()` on an empty
tokenized batch, and `get_pad_id().expect(..)` when the tokenizer has no pad
id (reached whenever the batch is non-empty).  In the non-panicking case the
result is the padded token batch and its attention mask. -/
def prepare_for_model (tok : TokenizerOption) (inputs labels : List String)
    (template : Option (String → String)) : Option (List (List Int) × List (List Bool)) :=
  let tokenized_input := tokenizedBatch tok inputs labels template
  match listMax? (tokenized_input.map List.length), tok.padId with
  | some max_len, some pad =>
    let padded := tokenized_input.map
      (fun t => t ++ List.replicate (max_len - t.length) pad)
    some (padded, padded.map (fun t => t.map (fun x => x != pad)))
  | _, _ => none

/-- The row-major reshape `view((N, L, -1))` of the flat `[N*L, C]` logits to
`[N, L, C]`: entry `(i, j, c)` of the reshaped tensor is entry `(i*L + j, c)`
of the flat tensor. -/
def viewNLC (L : Nat) (flat : Nat → Nat → ℝ) : Nat → Nat → Nat → ℝ :=
  fun i j c => flat (i * L + j) c

/-- Softmax of a three-dimensional tensor along axis 1 (the label axis), with
`L` the extent of that axis: the source's `output.softmax(1, Float)`. -/
noncomputable def softmaxDim1 (x : Nat → Nat → Nat → ℝ) (L : Nat) : Nat → Nat → Nat → ℝ :=
  fun i j c => Real.exp (x i j c) / ∑ k in Finset.range L, Real.exp (x i k c)

/-- Selection of the last class (`select(-1, -1)`) of a `[N, L, C]` tensor:
class index `C - 1`. -/
def selectLastClass (x : Nat → Nat → Nat → ℝ) (C : Nat) : Nat → Nat → ℝ :=
  fun i j => x i j (C - 1)

/-- The `[N, L]` score matrix of `predict`, exactly as computed by the source:
softmax over axis 1 of the full reshaped logits, then selection of the last
class. -/
noncomputable def predictScores (flat : Nat → Nat → ℝ) (L C : Nat) : Nat → Nat → ℝ :=
  selectLastClass (softmaxDim1 (viewNLC L flat) L) C

/-- The per-label entailment logits (class index `C - 1`, the last class) of
the reshaped logits — the spec's description of step 4 of `predict`. -/
def entailLogits (flat : Nat → Nat → ℝ) (L C : Nat) : Nat → Nat → ℝ :=
  fun i j => viewNLC L flat i j (C - 1)

/-- Softmax across the `L` labels of a per-input family of scalars — the
spec's "normalize these `L` entailment scores per input via softmax across
labels". -/
noncomputable def softmaxOverLabels (f : Nat → Nat → ℝ) (L : Nat) : Nat → Nat → ℝ :=
  fun i j => Real.exp (f i j) / ∑ k in Finset.range L, Real.exp (f i k)

/-- The spec-side formulation of the `predict` scores: select the entailment
class first, then softmax across labels. -/
noncomputable def specPredictScores (flat : Nat → Nat → ℝ) (L C : Nat) : Nat → Nat → ℝ :=
  softmaxOverLabels (entailLogits flat L C) L

/-- `argmax(-1)` over the first `L` indices of a real-valued function,
resolving ties to the lowest index: a left fold that replaces the current best
only on strict improvement. -/
noncomputable def argmaxIdx (f : Nat → ℝ) (L : Nat) : Nat :=
  (List.range L).foldl (fun best j => if f best < f j then j else best) 0

/-- The scoring tail of `ZeroShotClassificationModel::predict` after the
forward pass: per input, the argmax label over `predictScores`, gathered score,
label id and sentence index, in input order. -/
noncomputable def predictCore (inputs labels : List String) (flat : Nat → Nat → ℝ)
    (C : Nat) : List Label :=
  (List.range inputs.length).map (fun i =>
    let sel := argmaxIdx (fun j => predictScores flat labels.length C i j) labels.length
    { text := labels.getD sel ""
      score := predictScores flat labels.length C i sel
      id := (sel : Int)
      sentence := i })

/-- The index set kept by `Tensor::slice(dim, start, stop, step)` on a
dimension of extent `size`: indices `start, start+step, ...` below
`min stop size`. -/
def sliceIndices (start stop step size : Nat) : List Nat :=
  (List.range size).filter
    (fun k => decide (start ≤ k) && decide (k < stop) && decide ((k - start) % step = 0))

/-- Softmax of a list of reals (softmax along the sliced class dimension). -/
noncomputable def softmax (xs : List ℝ) : List ℝ :=
  xs.map (fun x => Real.exp x / (xs.map Real.exp).sum)

/-- The per-(input, label) score of `predict_multilabel`, exactly as computed
by the source: `slice(-1, 0, 3, 2)` on the class dimension (keeping class
indices 0 and 2 when `C ≥ 3`, only class 0 when `C ≤ 2`), softmax along the
sliced dimension, then selection of its last entry. -/
noncomputable def mlScore (row : Nat → ℝ) (C : Nat) : ℝ :=
  (softmax ((sliceIndices 0 3 2 C).map row)).getLastD 0

/-- The scoring tail of `ZeroShotClassificationModel::predict_multilabel`
after the forward pass: per input, one `Label` per label in original label
order, each carrying its independently computed `mlScore`. -/
noncomputable def predictMultilabelCore (inputs labels : List String) (flat : Nat → Nat → ℝ)
    (C : Nat) : List (List Label) :=
  (List.range inputs.length).map (fun i =>
    (List.range labels.length).map (fun j =>
      { text := labels.getD j ""
        score := mlScore (fun c => viewNLC labels.length flat i j c) C
        id := (j : Int)
        sentence := i }))

/-- Embedding of `ZeroShotClassificationModel::predict`.  `forward` is the
opaque forward pass of the selected architecture adapter (from the padded
batch and mask to flat `[N*L, C]` logits, as a function of row and class) and
`C` is the class-dimension extent inferred by `view((N, L, -1))`.  The
`Option` propagates the panics of `prepare_for_model`. -/
noncomputable def ZeroShotClassificationModel.predict (tok : TokenizerOption)
    (forward : List (List Int) → List (List Bool) → Nat → Nat → ℝ) (C : Nat)
    (inputs labels : List String) (template : Option (String → String)) :
    Option (List Label) :=
  (prepare_for_model tok inputs labels template).map
    (fun tm => predictCore inputs labels (forward tm.1 tm.2) C)

/-- Embedding of `ZeroShotClassificationModel::predict_multilabel`, with the
same conventions as `ZeroShotClassificationModel.predict`. -/
noncomputable def ZeroShotClassificationModel.predict_multilabel (tok : TokenizerOption)
    (forward : List (List Int) → List (List Bool) → Nat → Nat → ℝ) (C : Nat)
    (inputs labels : List String) (template : Option (String → String)) :
    Option (List (List Label)) :=
  (prepare_for_model tok inputs labels template).map
    (fun tm => predictMultilabelCore inputs labels (forward tm.1 tm.2) C)

/-! ## Helper lemmas -/

lemma getD_of_getElem? {α} {l : List α} {n : Nat} {x : α} (d : α) (h : l[n]? = some x) :
    l.getD n d = x := by
  rw [List.getD_eq_getElem?_getD, h]
  rfl

lemma map_range_getElem? {α} (f : Nat → α) {N i : Nat} (h : i < N) :
    ((List.range N).map f)[i]? = some (f i) := by
  rw [List.getElem?_map, List.getElem?_range h]
  rfl

lemma map_range_getD {α} (f : Nat → α) {N i : Nat} (d : α) (h : i < N) :
    ((List.range N).map f).getD i d = f i :=
  getD_of_getElem? d (map_range_getElem? f h)

lemma textPairList_cons (a : String) (inputs ls : List String) :
    textPairList (a :: inputs) ls = ls.map (fun l => (a, l)) ++ textPairList inputs ls := by
  simp [textPairList]

lemma textPairList_length (inputs ls : List String) :
    (textPairList inputs ls).length = inputs.length * ls.length := by
  induction inputs with
  | nil => simp [textPairList]
  | cons a t ih =>
    rw [textPairList_cons]
    simp only [List.length_append, List.length_map, ih, List.length_cons]
    ring

lemma labelSentences_length (template : Option (String → String)) (labels : List String) :
    (labelSentences template labels).length = labels.length := by
  cases template <;> simp [labelSentences]

lemma textPairList_getElem? (ls : List String) :
    ∀ (inputs : List String) (i j : Nat), i < inputs.length → j < ls.length →
      (textPairList inputs ls)[i * ls.length + j]? =
        some (inputs.getD i "", ls.getD j "") := by
  intro inputs
  induction inputs with
  | nil =>
    intro i j hi _
    exact absurd hi (Nat.not_lt_zero i)
  | cons a t ih =>
    intro i j hi hj
    rw [textPairList_cons]
    cases i with
    | zero =>
      have hlen : (0 : Nat) * ls.length + j < (ls.map (fun l => (a, l))).length := by
        simpa using hj
      rw [List.getElem?_append_left hlen]
      have : (0 : Nat) * ls.length + j = j := by ring
      rw [this, List.getElem?_map, List.getElem?_eq_getElem hj]
      have hd : ls.getD j "" = ls[j] := List.getD_eq_getElem ls "" hj
      rw [hd]
      rfl
    | succ i =>
      have hidx : (i + 1) * ls.length + j = (ls.map (fun l => (a, l))).length + (i * ls.length + j) := by
        simp only [List.length_map]
        ring
      rw [hidx, List.getElem?_append_right (Nat.le_add_right _ _), Nat.add_sub_cancel_left]
      have hi' : i < t.length := Nat.lt_of_succ_lt_succ hi
      rw [ih i j hi' hj]
      rfl

lemma textPairList_nil_right (inputs : List String) : textPairList inputs [] = [] := by
  induction inputs with
  | nil => rfl
  | cons a t ih => rw [textPairList_cons, ih]; rfl

lemma textPairList_ne_nil {inputs ls : List String} (h1 : inputs ≠ []) (h2 : ls ≠ []) :
    textPairList inputs ls ≠ [] := by
  have hpos : 0 < (textPairList inputs ls).length := by
    rw [textPairList_length]
    exact Nat.mul_pos (List.length_pos.mpr h1) (List.length_pos.mpr h2)
  exact List.ne_nil_of_length_pos hpos

lemma listMax?_of_ne_nil {l : List Nat} (h : l ≠ []) : ∃ m, listMax? l = some m := by
  cases l with
  | nil => exact absurd rfl h
  | cons x xs => exact ⟨xs.foldl Nat.max x, rfl⟩

lemma le_foldl_max_init : ∀ (l : List Nat) (b : Nat), b ≤ l.foldl Nat.max b := by
  intro l
  induction l with
  | nil => intro b; exact Nat.le_refl b
  | cons y ys ih =>
    intro b
    exact Nat.le_trans (Nat.le_max_left b y) (ih (Nat.max b y))

lemma le_foldl_max {x : Nat} : ∀ (l : List Nat) (b : Nat), x ∈ l → x ≤ l.foldl Nat.max b := by
  intro l
  induction l with
  | nil => intro b hx; exact absurd hx (List.not_mem_nil x)
  | cons y ys ih =>
    intro b hx
    rcases List.mem_cons.mp hx with hxy | hmem
    · subst hxy
      exact Nat.le_trans (Nat.le_max_right b x) (le_foldl_max_init ys (Nat.max b x))
    · exact ih (Nat.max b y) hmem

lemma le_listMax? {l : List Nat} {m x : Nat} (hm : listMax? l = some m) (hx : x ∈ l) :
    x ≤ m := by
  cases l with
  | nil => exact absurd hx (List.not_mem_nil x)
  | cons y ys =>
    have hm' : ys.foldl Nat.max y = m := Option.some.inj hm
    rcases List.mem_cons.mp hx with hxy | hmem
    · subst hxy; rw [← hm']; exact le_foldl_max_init ys x
    · rw [← hm']; exact le_foldl_max ys y hmem

lemma argmax_foldl_mem (f : Nat → ℝ) :
    ∀ (l : List Nat) (b : Nat),
      l.foldl (fun best j => if f best < f j then j else best) b ∈ b :: l := by
  intro l
  induction l with
  | nil => intro b; exact List.mem_cons_self b []
  | cons x xs ih =>
    intro b
    rw [List.foldl_cons]
    by_cases h : f b < f x
    · rw [if_pos h]
      have := ih x
      rcases List.mem_cons.mp this with h1 | h2
      · exact List.mem_cons.mpr (Or.inr (List.mem_cons.mpr (Or.inl h1)))
      · exact List.mem_cons.mpr (Or.inr (List.mem_cons.mpr (Or.inr h2)))
    · rw [if_neg h]
      have := ih b
      rcases List.mem_cons.mp this with h1 | h2
      · exact List.mem_cons.mpr (Or.inl h1)
      · exact List.mem_cons.mpr (Or.inr (List.mem_cons.mpr (Or.inr h2)))

lemma argmax_foldl_le (f : Nat → ℝ) :
    ∀ (l : List Nat) (b : Nat),
      f b ≤ f (l.foldl (fun best j => if f best < f j then j else best) b) ∧
      ∀ x ∈ l, f x ≤ f (l.foldl (fun best j => if f best < f j then j else best) b) := by
  intro l
  induction l with
  | nil =>
    intro b
    exact ⟨le_refl _, fun x hx => absurd hx (List.not_mem_nil x)⟩
  | cons y ys ih =>
    intro b
    rw [List.foldl_cons]
    by_cases h : f b < f y
    · rw [if_pos h]
      refine ⟨le_trans (le_of_lt h) (ih y).1, ?_⟩
      intro x hx
      rcases List.mem_cons.mp hx with h1 | h2
      · subst h1; exact (ih x).1
      · exact (ih y).2 x h2
    · rw [if_neg h]
      refine ⟨(ih b).1, ?_⟩
      intro x hx
      rcases List.mem_cons.mp hx with h1 | h2
      · subst h1; exact le_trans (not_lt.mp h) (ih b).1
      · exact (ih b).2 x h2

lemma argmaxIdx_lt (f : Nat → ℝ) {L : Nat} (h : 0 < L) : argmaxIdx f L < L := by
  have := argmax_foldl_mem f (List.range L) 0
  rcases List.mem_cons.mp this with h1 | h2
  · rw [argmaxIdx, h1]; exact h
  · exact List.mem_range.mp h2

lemma le_argmaxIdx (f : Nat → ℝ) {L j : Nat} (hj : j < L) : f j ≤ f (argmaxIdx f L) :=
  (argmax_foldl_le f (List.range L) 0).2 j (List.mem_range.mpr hj)

lemma argmaxIdx_congr {f g : Nat → ℝ} (h : ∀ a b, f a < f b ↔ g a < g b) (L : Nat) :
    argmaxIdx f L = argmaxIdx g L := by
  have : ∀ (l : List Nat) (b : Nat),
      l.foldl (fun best j => if f best < f j then j else best) b =
        l.foldl (fun best j => if g best < g j then j else best) b := by
    intro l
    induction l with
    | nil => intro b; rfl
    | cons x xs ih =>
      intro b
      rw [List.foldl_cons, List.foldl_cons]
      by_cases hb : f b < f x
      · rw [if_pos hb, if_pos ((h b x).mp hb), ih]
      · rw [if_neg hb, if_neg (fun hg => hb ((h b x).mpr hg)), ih]
  rw [argmaxIdx, argmaxIdx, this]

lemma argmaxIdx_one (f : Nat → ℝ) : argmaxIdx f 1 = 0 := by
  have h1 : List.range 1 = [0] := rfl
  rw [argmaxIdx, h1, List.foldl_cons, List.foldl_nil, ite_self]

lemma tokenizedBatch_ne_nil (tok : TokenizerOption) {inputs labels : List String}
    (template : Option (String → String)) (h1 : inputs ≠ []) (h2 : labels ≠ []) :
    tokenizedBatch tok inputs labels template ≠ [] := by
  have hls : labelSentences template labels ≠ [] := by
    intro hc
    have := labelSentences_length template labels
    rw [hc] at this
    exact h2 (List.eq_nil_of_length_eq_zero this.symm)
  have hpairs := textPairList_ne_nil h1 hls
  rw [tokenizedBatch]
  intro hc
  exact hpairs (List.map_eq_nil_iff.mp hc)

lemma prepare_for_model_eq_some (tok : TokenizerOption) (pad : Int)
    (hpad : tok.padId = some pad) (inputs labels : List String)
    (template : Option (String → String)) (h1 : inputs ≠ []) (h2 : labels ≠ []) :
    prepare_for_model tok inputs labels template =
      some (paddedBatch pad tok inputs labels template,
        attentionMask pad tok inputs labels template) := by
  obtain ⟨m, hm⟩ := listMax?_of_ne_nil
    (l := (tokenizedBatch tok inputs labels template).map List.length)
    (by
      intro hc
      exact tokenizedBatch_ne_nil tok template h1 h2 (List.map_eq_nil_iff.mp hc))
  have hb : batchMaxLen tok inputs labels template = m := by
    rw [batchMaxLen, hm]
    rfl
  rw [prepare_for_model]
  rw [hm, hpad]
  rw [paddedBatch, attentionMask, paddedBatch, hb]

lemma prepare_for_model_no_pad {tok : TokenizerOption} (hpad : tok.padId = none)
    (inputs labels : List String) (template : Option (String → String)) :
    prepare_for_model tok inputs labels template = none := by
  rw [prepare_for_model, hpad]
  cases listMax? ((tokenizedBatch tok inputs labels template).map List.length) <;> rfl

lemma prepare_for_model_empty {tok : TokenizerOption} {inputs labels : List String}
    (template : Option (String → String)) (h : inputs = [] ∨ labels = []) :
    prepare_for_model tok inputs labels template = none := by
  have htok : tokenizedBatch tok inputs labels template = [] := by
    rcases h with h | h
    · subst h; rfl
    · subst h
      rw [tokenizedBatch]
      have : labelSentences template ([] : List String) = [] := by
        cases template <;> rfl
      rw [this, textPairList_nil_right]
      rfl
  rw [prepare_for_model, htok]
  cases tok.padId <;> rfl

lemma predictCore_length (inputs labels : List String) (flat : Nat → Nat → ℝ) (C : Nat) :
    (predictCore inputs labels flat C).length = inputs.length := by
  rw [predictCore, List.length_map, List.length_range]

lemma predictCore_getD (inputs labels : List String) (flat : Nat → Nat → ℝ) (C : Nat)
    {i : Nat} (hi : i < inputs.length) :
    (predictCore inputs labels flat C).getD i default =
      { text := labels.getD
          (argmaxIdx (fun j => predictScores flat labels.length C i j) labels.length) ""
        score := predictScores flat labels.length C i
          (argmaxIdx (fun j => predictScores flat labels.length C i j) labels.length)
        id := ((argmaxIdx (fun j => predictScores flat labels.length C i j)
          labels.length : Nat) : Int)
        sentence := i } := by
  rw [predictCore, map_range_getD _ _ hi]

lemma predictMultilabelCore_length (inputs labels : List String) (flat : Nat → Nat → ℝ)
    (C : Nat) : (predictMultilabelCore inputs labels flat C).length = inputs.length := by
  rw [predictMultilabelCore, List.length_map, List.length_range]

lemma predictMultilabelCore_getD_length (inputs labels : List String) (flat : Nat → Nat → ℝ)
    (C : Nat) {i : Nat} (hi : i < inputs.length) :
    ((predictMultilabelCore inputs labels flat C).getD i []).length = labels.length := by
  rw [predictMultilabelCore, map_range_getD _ _ hi, List.length_map, List.length_range]

lemma predictMultilabelCore_getD (inputs labels : List String) (flat : Nat → Nat → ℝ)
    (C : Nat) {i j : Nat} (hi : i < inputs.length) (hj : j < labels.length) :
    ((predictMultilabelCore inputs labels flat C).getD i []).getD j default =
      { text := labels.getD j ""
        score := mlScore (fun c => viewNLC labels.length flat i j c) C
        id := (j : Int)
        sentence := i } := by
  rw [predictMultilabelCore, map_range_getD _ _ hi, map_range_getD _ _ hj]

lemma expSum_pos (flat : Nat → Nat → ℝ) {L : Nat} (C i : Nat) (hL : 1 ≤ L) :
    0 < ∑ k in Finset.range L, Real.exp (viewNLC L flat i k (C - 1)) :=
  Finset.sum_pos (fun k _ => Real.exp_pos _) (Finset.nonempty_range_iff.mpr (by omega))

lemma predictScores_sum_eq_one (flat : Nat → Nat → ℝ) {L : Nat} (C i : Nat) (hL : 1 ≤ L) :
    ∑ j in Finset.range L, predictScores flat L C i j = 1 := by
  have hpos := expSum_pos flat C i hL
  rw [show (∑ j in Finset.range L, predictScores flat L C i j) =
      (∑ j in Finset.range L, Real.exp (viewNLC L flat i j (C - 1))) /
        (∑ k in Finset.range L, Real.exp (viewNLC L flat i k (C - 1))) from by
    rw [Finset.sum_div]
    rfl]
  exact div_self (ne_of_gt hpos)

lemma predictScores_lt_iff (flat : Nat → Nat → ℝ) {L : Nat} (C i : Nat) (hL : 1 ≤ L)
    (a b : Nat) :
    predictScores flat L C i a < predictScores flat L C i b ↔
      entailLogits flat L C i a < entailLogits flat L C i b := by
  have hpos := expSum_pos flat C i hL
  show Real.exp (viewNLC L flat i a (C - 1)) / _ <
      Real.exp (viewNLC L flat i b (C - 1)) / _ ↔ _
  rw [div_lt_div_iff_of_pos_right hpos, Real.exp_lt_exp]
  exact Iff.rfl

lemma sliceIndices_0_3_2 {C : Nat} (h : 3 ≤ C) : sliceIndices 0 3 2 C = [0, 2] := by
  induction C with
  | zero => omega
  | succ n ih =>
    rcases Nat.lt_or_ge n 3 with hn | hn
    · have h2 : n = 2 := by omega
      subst h2
      decide
    · have hfilter : List.filter
          (fun k => decide (0 ≤ k) && decide (k < 3) && decide ((k - 0) % 2 = 0)) [n] = [] := by
        have hfalse : (decide (0 ≤ n) && decide (n < 3) && decide ((n - 0) % 2 = 0)) = false := by
          have : decide (n < 3) = false := decide_eq_false (by omega)
          rw [this]
          simp
        rw [List.filter_cons, hfalse]
        rfl
      rw [sliceIndices, List.range_succ, List.filter_append, hfilter, List.append_nil]
      exact ih hn

lemma mlScore_of_three_le (row : Nat → ℝ) {C : Nat} (h : 3 ≤ C) :
    mlScore row C = Real.exp (row 2) / (Real.exp (row 0) + Real.exp (row 2)) := by
  rw [mlScore, sliceIndices_0_3_2 h]
  show (softmax [row 0, row 2]).getLastD 0 = _
  rw [softmax]
  simp [List.getLastD]

/-! ## Concrete fixtures for counterexamples and witnesses -/

/-- A trivial tokenizer with pad id 0, mapping every pair to the single token
`1`; used for concrete instantiations. -/
def unitTok : TokenizerOption := ⟨fun _ _ => [1], some 0⟩

/-- A tokenizer lacking a pad id. -/
def noPadTok : TokenizerOption := ⟨fun _ _ => [1], none⟩

/-- A constant-zero forward pass, used for concrete instantiations. -/
noncomputable def zeroForward : List (List Int) → List (List Bool) → Nat → Nat → ℝ :=
  fun _ _ _ _ => 0

/-- Flat logits for the C1 counterexample: logit 1 at class 3, logit 0 at all
other classes, so that with `C = 4` the last class disagrees with class 2. -/
noncomputable def cexFlat : Nat → Nat → ℝ := fun _ c => if c = 3 then 1 else 0

/-! ## Claim theorems -/

/-- C4 counterexample: constructing the XLMRoberta variant from a Bert-shaped
config succeeds, but `model_type()` on the result reports `ModelType.Roberta`,
not the originally supplied `ModelType.XLMRoberta`. -/
theorem C4_model_type_cex :
    (ZeroShotClassificationOption.new ModelType.XLMRoberta ConfigOption.Bert).map
        ZeroShotClassificationOption.model_type = Except.ok ModelType.Roberta ∧
    ModelType.Roberta ≠ ModelType.XLMRoberta :=
  ⟨rfl, by decide⟩

/-- C4 (amended): for every successfully constructed variant, `model_type()`
returns the model type originally passed to `new`, except when that model type
is `ModelType.XLMRoberta`, in which case it returns `ModelType.Roberta`. -/
theorem C4_model_type_roundtrip (mt : ModelType) (cfg : ConfigOption)
    (r : ZeroShotClassificationOption)
    (h : ZeroShotClassificationOption.new mt cfg = Except.ok r) :
    r.model_type = if mt = ModelType.XLMRoberta then ModelType.Roberta else mt := by
  cases mt <;> cases cfg <;>
    simp_all [ZeroShotClassificationOption.new, ZeroShotClassificationOption.model_type] <;>
    (subst h; rfl)

theorem C4_model_type_roundtrip_witness :
    ZeroShotClassificationOption.model_type ZeroShotClassificationOption.Bert =
      (if ModelType.Bert = ModelType.XLMRoberta then ModelType.Roberta else ModelType.Bert) :=
  C4_model_type_roundtrip ModelType.Bert ConfigOption.Bert ZeroShotClassificationOption.Bert rfl

/-- C7 counterexample: three pairwise distinct model types — `Bert`,
`Roberta` and `XLMRoberta` — all accept the Bert-shaped config, refuting
"exactly two model types accept the same Bert-shaped config". -/
theorem C7_three_accept_bert_cex :
    (ZeroShotClassificationOption.new ModelType.Bert ConfigOption.Bert).isOk = true ∧
    (ZeroShotClassificationOption.new ModelType.Roberta ConfigOption.Bert).isOk = true ∧
    (ZeroShotClassificationOption.new ModelType.XLMRoberta ConfigOption.Bert).isOk = true ∧
    ModelType.Bert ≠ ModelType.Roberta ∧ ModelType.Bert ≠ ModelType.XLMRoberta ∧
    ModelType.Roberta ≠ ModelType.XLMRoberta :=
  ⟨rfl, rfl, rfl, by decide, by decide, by decide⟩

/-- C7 (amended): `ZeroShotClassificationOption::new` succeeds exactly when
the supplied config has the shape its dispatch table assigns to the requested
model type (with no adapter implemented, no config is accepted), and every
failure is the named `InvalidConfigurationError`.  Three model types — Bert,
Roberta and XLMRoberta — accept the Bert-shaped config; Roberta and
XLMRoberta remain distinct variants built from it. -/
theorem C7_config_dispatch (mt : ModelType) (cfg : ConfigOption) :
    ((ZeroShotClassificationOption.new mt cfg).isOk = true ↔ expectedConfig mt = some cfg) ∧
    ((ZeroShotClassificationOption.new mt cfg).isOk = true ∨
      isInvalidConfigError (ZeroShotClassificationOption.new mt cfg) = true) ∧
    ZeroShotClassificationOption.new ModelType.Roberta ConfigOption.Bert =
      Except.ok ZeroShotClassificationOption.Roberta ∧
    ZeroShotClassificationOption.new ModelType.XLMRoberta ConfigOption.Bert =
      Except.ok ZeroShotClassificationOption.XLMRoberta := by
  cases mt <;> cases cfg <;> exact ⟨by decide, by decide, rfl, rfl⟩

/-- C3: on an empty input list or an empty label list, both `predict` and
`predict_multilabel` panic (modelled by `none`) at the `max()`-of-empty
`unwrap` inside `prepare_for_model` — before any tensor is built, but as a
crash rather than as a recoverable caller-input validation error. -/
theorem C3_empty_input_panics :
    ZeroShotClassificationModel.predict unitTok zeroForward 3 [] ["politics"] none = none ∧
    ZeroShotClassificationModel.predict unitTok zeroForward 3
      ["Who are you voting for in 2020?"] [] none = none ∧
    ZeroShotClassificationModel.predict_multilabel unitTok zeroForward 3 [] ["politics"]
      none = none ∧
    ZeroShotClassificationModel.predict_multilabel unitTok zeroForward 3
      ["Who are you voting for in 2020?"] [] none = none :=
  ⟨rfl, rfl, rfl, rfl⟩

/-- C8 counterexample: with a tokenizer that lacks a pad id, model
construction still succeeds; the defect instead panics inside
`prepare_for_model` during a prediction call — refuting "detected at
construction time (not a runtime condition encountered during a prediction
call)". -/
theorem C8_missing_pad_cex :
    (ZeroShotClassificationModel.new ModelType.Bart noPadTok ConfigOption.Bart).isOk = true ∧
    prepare_for_model noPadTok ["input"] ["label"] none = none :=
  ⟨rfl, rfl⟩

/-- C8 (amended): a missing pad id never affects construction and instead
panics during prediction-time preparation; when a pad id exists, every
tokenized sequence is right-padded with it to the batch's actual maximum
post-truncation length, and the attention mask is the element-wise
`token != pad` boolean tensor over the padded batch (hence of the same
shape). -/
theorem C8_pad_detection_and_padding (pad : Int) (tokenize : String → String → List Int)
    (mt : ModelType) (cfg : ConfigOption) (inputs labels : List String)
    (template : Option (String → String)) (hN : inputs ≠ []) (hL : labels ≠ []) :
    (ZeroShotClassificationModel.new mt ⟨tokenize, none⟩ cfg).isOk
        = (ZeroShotClassificationModel.new mt ⟨tokenize, some pad⟩ cfg).isOk ∧
    prepare_for_model ⟨tokenize, none⟩ inputs labels template = none ∧
    prepare_for_model ⟨tokenize, some pad⟩ inputs labels template =
      some (paddedBatch pad ⟨tokenize, some pad⟩ inputs labels template,
        attentionMask pad ⟨tokenize, some pad⟩ inputs labels template) ∧
    (∀ t ∈ paddedBatch pad ⟨tokenize, some pad⟩ inputs labels template,
      t.length = batchMaxLen ⟨tokenize, some pad⟩ inputs labels template) ∧
    attentionMask pad ⟨tokenize, some pad⟩ inputs labels template =
      (paddedBatch pad ⟨tokenize, some pad⟩ inputs labels template).map
        (fun t => t.map (fun x => x != pad)) := by
  refine ⟨?_, prepare_for_model_no_pad rfl inputs labels template,
    prepare_for_model_eq_some ⟨tokenize, some pad⟩ pad rfl inputs labels template hN hL, ?_, rfl⟩
  · rw [ZeroShotClassificationModel.new, ZeroShotClassificationModel.new]
    cases ZeroShotClassificationOption.new mt cfg <;> rfl
  · intro t ht
    rw [paddedBatch] at ht
    obtain ⟨orig, horig, rfl⟩ := List.mem_map.mp ht
    rw [List.length_append, List.length_replicate]
    have hle : orig.length ≤ batchMaxLen ⟨tokenize, some pad⟩ inputs labels template := by
      obtain ⟨m, hm⟩ := listMax?_of_ne_nil
        (l := (tokenizedBatch ⟨tokenize, some pad⟩ inputs labels template).map List.length)
        (fun hc => tokenizedBatch_ne_nil _ template hN hL (List.map_eq_nil_iff.mp hc))
      rw [batchMaxLen, hm]
      exact le_listMax? hm (List.mem_map.mpr ⟨orig, horig, rfl⟩)
    omega

theorem C8_pad_detection_witness :
    prepare_for_model ⟨fun _ _ => [1], none⟩ ["a"] ["b"] none = none :=
  (C8_pad_detection_and_padding 0 (fun _ _ => [1]) ModelType.Bart ConfigOption.Bart
    ["a"] ["b"] none (by decide) (by decide)).2.1

lemma predictScores_L1 (flat : Nat → Nat → ℝ) (C i : Nat) :
    predictScores flat 1 C i 0 = 1 := by
  show Real.exp (viewNLC 1 flat i 0 (C - 1)) /
      ∑ k in Finset.range 1, Real.exp (viewNLC 1 flat i k (C - 1)) = 1
  rw [Finset.sum_range_one]
  exact div_self (Real.exp_ne_zero _)

/-- C2: in `predict`, the per-label scores are the softmax across labels of
the per-label entailment logits — softmax over axis 1 of the full tensor
followed by selection of the last class equals selection of the last class
followed by softmax across the `L` labels — and for every input those `L`
scores sum to exactly 1 (the floating-point-tolerance caveat of the claim is
vacuous in the real-number model). -/
theorem C2_softmax_select_commute (flat : Nat → Nat → ℝ) (L C i j : Nat) :
    predictScores flat L C i j = specPredictScores flat L C i j ∧
    (1 ≤ L → ∑ k in Finset.range L, predictScores flat L C i k = 1) :=
  ⟨rfl, fun hL => predictScores_sum_eq_one flat C i hL⟩

theorem C2_softmax_select_commute_witness :
    predictScores (fun _ _ => (0 : ℝ)) 2 3 0 0 = specPredictScores (fun _ _ => (0 : ℝ)) 2 3 0 0 ∧
    ∑ k in Finset.range 2, predictScores (fun _ _ => (0 : ℝ)) 2 3 0 k = 1 :=
  ⟨(C2_softmax_select_commute (fun _ _ => 0) 2 3 0 0).1,
    (C2_softmax_select_commute (fun _ _ => 0) 2 3 0 0).2 (by decide)⟩

/-- C5: `prepare_for_model` builds the `(input, label_sentence)` pair list as
the full cross-product in row-major, input-major/label-minor order — the pair
at flat position `i*L + j` is `(inputs[i], label_sentences[j])`, the list has
length `N*L` — and the row-major reshape to `[N, L, C]` places flat row
`i*L + j` at position `(i, j)`. -/
theorem C5_cross_product_row_major (inputs labels : List String)
    (template : Option (String → String)) (flat : Nat → Nat → ℝ)
    (i j : Nat) (hi : i < inputs.length) (hj : j < labels.length) :
    (textPairList inputs (labelSentences template labels)).length =
        inputs.length * labels.length ∧
    (textPairList inputs (labelSentences template labels))[i * labels.length + j]? =
      some (inputs.getD i "", (labelSentences template labels).getD j "") ∧
    (∀ c, viewNLC labels.length flat i j c = flat (i * labels.length + j) c) := by
  have hlen := labelSentences_length template labels
  refine ⟨by rw [textPairList_length, hlen], ?_, fun c => rfl⟩
  have hj' : j < (labelSentences template labels).length := by rw [hlen]; exact hj
  have hmain := textPairList_getElem? (labelSentences template labels) inputs i j hi hj'
  rw [hlen] at hmain
  exact hmain

theorem C5_cross_product_witness :
    (textPairList ["a", "b"] (labelSentences none ["x", "y"])).length = 2 * 2 ∧
    (textPairList ["a", "b"] (labelSentences none ["x", "y"]))[1 * 2 + 0]? =
      some ((["a", "b"] : List String).getD 1 "", (labelSentences none ["x", "y"]).getD 0 "") ∧
    (∀ c, viewNLC 2 (fun _ _ => (0 : ℝ)) 1 0 c = (fun _ _ => (0 : ℝ)) (1 * 2 + 0) c) :=
  C5_cross_product_row_major ["a", "b"] ["x", "y"] none (fun _ _ => 0) 1 0
    (by decide) (by decide)

/-- C9: with exactly one label and a non-empty input list, `predict` succeeds
and returns, for every input `i`, that label with score exactly 1 (softmax of
a single element), id 0 and sentence index `i`. -/
theorem C9_single_label_score_one (pad : Int) (tokenize : String → String → List Int)
    (forward : List (List Int) → List (List Bool) → Nat → Nat → ℝ) (C : Nat)
    (inputs : List String) (label : String) (template : Option (String → String))
    (hN : inputs ≠ []) :
    ∃ r, ZeroShotClassificationModel.predict ⟨tokenize, some pad⟩ forward C inputs [label]
        template = some r ∧
      r.length = inputs.length ∧
      ∀ i, i < inputs.length →
        r.getD i default = { text := label, score := 1, id := 0, sentence := i } := by
  have hprep := prepare_for_model_eq_some ⟨tokenize, some pad⟩ pad rfl inputs [label]
    template hN (by simp)
  refine ⟨predictCore inputs [label]
      (forward (paddedBatch pad ⟨tokenize, some pad⟩ inputs [label] template)
        (attentionMask pad ⟨tokenize, some pad⟩ inputs [label] template)) C, ?_, ?_, ?_⟩
  · rw [ZeroShotClassificationModel.predict, hprep]
    rfl
  · exact predictCore_length ..
  · intro i hi
    rw [predictCore_getD _ _ _ _ hi]
    simp only [List.length_singleton]
    rw [argmaxIdx_one, predictScores_L1]
    rfl

theorem C9_single_label_witness :
    ∃ r, ZeroShotClassificationModel.predict ⟨fun _ _ => [1], some 0⟩ zeroForward 3 ["a"]
        ["x"] none = some r ∧
      r.length = (["a"] : List String).length ∧
      ∀ i, i < (["a"] : List String).length →
        r.getD i default = { text := "x", score := 1, id := 0, sentence := i } :=
  C9_single_label_score_one 0 (fun _ _ => [1]) zeroForward 3 ["a"] "x" none (by decide)

/-- C10: the label index `predict` selects for input `i` is the argmax of the
raw (pre-softmax) entailment logits across labels — softmax normalization
never changes the selected label, only its reported score — and that index is
a maximizer of the raw entailment logits. -/
theorem C10_argmax_softmax_invariant (flat : Nat → Nat → ℝ) (C : Nat)
    (inputs labels : List String) (i : Nat) (hi : i < inputs.length)
    (hL : 1 ≤ labels.length) :
    ((predictCore inputs labels flat C).getD i default).id =
      ((argmaxIdx (fun j => entailLogits flat labels.length C i j)
        labels.length : Nat) : Int) ∧
    ∀ j, j < labels.length →
      entailLogits flat labels.length C i j ≤
        entailLogits flat labels.length C i
          (argmaxIdx (fun j => entailLogits flat labels.length C i j) labels.length) := by
  have hcongr : argmaxIdx (fun j => predictScores flat labels.length C i j) labels.length =
      argmaxIdx (fun j => entailLogits flat labels.length C i j) labels.length :=
    argmaxIdx_congr (fun a b => predictScores_lt_iff flat C i hL a b) labels.length
  constructor
  · rw [predictCore_getD _ _ _ _ hi, hcongr]
  · intro j hj
    exact le_argmaxIdx _ hj

theorem C10_argmax_witness :
    ((predictCore ["a"] ["x", "y"] (fun _ _ => (0 : ℝ)) 3).getD 0 default).id =
      ((argmaxIdx (fun j => entailLogits (fun _ _ => (0 : ℝ)) 2 3 0 j) 2 : Nat) : Int) ∧
    ∀ j, j < 2 →
      entailLogits (fun _ _ => (0 : ℝ)) 2 3 0 j ≤
        entailLogits (fun _ _ => (0 : ℝ)) 2 3 0
          (argmaxIdx (fun j => entailLogits (fun _ _ => (0 : ℝ)) 2 3 0 j) 2) :=
  C10_argmax_softmax_invariant (fun _ _ => 0) 3 ["a"] ["x", "y"] 0 (by decide) (by decide)

/-- C6: for non-empty inputs and labels, `predict` returns exactly `N` Label
records, one per input in input order with `sentence = i`, with `id` the
index of the selected (score-maximising) label in the original label list and
`text` that label's string; `predict_multilabel` returns exactly `N`
sequences of exactly `L` Label records each, preserving original label order
(`id = j`, `text = labels[j]`, `sentence = i`). -/
theorem C6_output_shapes (pad : Int) (tokenize : String → String → List Int)
    (forward : List (List Int) → List (List Bool) → Nat → Nat → ℝ) (C : Nat)
    (inputs labels : List String) (template : Option (String → String))
    (hN : inputs ≠ []) (hL : labels ≠ []) :
    ∃ r s,
      ZeroShotClassificationModel.predict ⟨tokenize, some pad⟩ forward C inputs labels
          template = some r ∧
      ZeroShotClassificationModel.predict_multilabel ⟨tokenize, some pad⟩ forward C inputs
          labels template = some s ∧
      r.length = inputs.length ∧
      (∀ i, i < inputs.length →
        (r.getD i default).sentence = i ∧
        ∃ j, j < labels.length ∧ (r.getD i default).id = (j : Int) ∧
          (r.getD i default).text = labels.getD j "" ∧
          ∀ k, k < labels.length →
            predictScores
              (forward (paddedBatch pad ⟨tokenize, some pad⟩ inputs labels template)
                (attentionMask pad ⟨tokenize, some pad⟩ inputs labels template))
              labels.length C i k ≤
            predictScores
              (forward (paddedBatch pad ⟨tokenize, some pad⟩ inputs labels template)
                (attentionMask pad ⟨tokenize, some pad⟩ inputs labels template))
              labels.length C i j) ∧
      s.length = inputs.length ∧
      (∀ i, i < inputs.length →
        (s.getD i []).length = labels.length ∧
        ∀ j, j < labels.length →
          ((s.getD i []).getD j default).sentence = i ∧
          ((s.getD i []).getD j default).id = (j : Int) ∧
          ((s.getD i []).getD j default).text = labels.getD j "") := by
  have hprep := prepare_for_model_eq_some ⟨tokenize, some pad⟩ pad rfl inputs labels
    template hN hL
  have hLpos : 0 < labels.length := List.length_pos.mpr hL
  refine ⟨predictCore inputs labels
      (forward (paddedBatch pad ⟨tokenize, some pad⟩ inputs labels template)
        (attentionMask pad ⟨tokenize, some pad⟩ inputs labels template)) C,
    predictMultilabelCore inputs labels
      (forward (paddedBatch pad ⟨tokenize, some pad⟩ inputs labels template)
        (attentionMask pad ⟨tokenize, some pad⟩ inputs labels template)) C,
    ?_, ?_, predictCore_length .., ?_, predictMultilabelCore_length .., ?_⟩
  · rw [ZeroShotClassificationModel.predict, hprep]
    rfl
  · rw [ZeroShotClassificationModel.predict_multilabel, hprep]
    rfl
  · intro i hi
    rw [predictCore_getD _ _ _ _ hi]
    refine ⟨rfl, argmaxIdx (fun j => predictScores
        (forward (paddedBatch pad ⟨tokenize, some pad⟩ inputs labels template)
          (attentionMask pad ⟨tokenize, some pad⟩ inputs labels template))
        labels.length C i j) labels.length,
      argmaxIdx_lt _ hLpos, rfl, rfl, fun k hk => le_argmaxIdx _ hk⟩
  · intro i hi
    refine ⟨predictMultilabelCore_getD_length _ _ _ _ hi, fun j hj => ?_⟩
    rw [predictMultilabelCore_getD _ _ _ _ hi hj]
    exact ⟨rfl, rfl, rfl⟩

theorem C6_output_shapes_witness :
    (ZeroShotClassificationModel.predict ⟨fun _ _ => [1], some 0⟩ zeroForward 3 ["a"]
        ["x", "y"] none).isSome = true ∧
    (ZeroShotClassificationModel.predict_multilabel ⟨fun _ _ => [1], some 0⟩ zeroForward 3
        ["a"] ["x", "y"] none).isSome = true := by
  obtain ⟨r, s, hr, hs, -, -, -, -⟩ := C6_output_shapes 0 (fun _ _ => [1]) zeroForward 3
    ["a"] ["x", "y"] none (by decide) (by decide)
  rw [hr, hs]
  exact ⟨rfl, rfl⟩

/-- C1 (amended): for every class count `C ≥ 3`, the multilabel score of
label `j` on input `i` is the entailment branch of the two-way softmax
between class 0 and class 2 of the reshaped logits (the code slices classes
`0` and `2`, not `0` and `C-1`); when `C = 3`, class 2 is the last class, so
this is exactly the claimed contradiction/entailment two-way softmax. -/
theorem C1_multilabel_two_way_softmax (inputs labels : List String)
    (flat : Nat → Nat → ℝ) (C : Nat) (i j : Nat)
    (hi : i < inputs.length) (hj : j < labels.length) (hC : 3 ≤ C) :
    (((predictMultilabelCore inputs labels flat C).getD i []).getD j default).score =
      Real.exp (viewNLC labels.length flat i j 2) /
        (Real.exp (viewNLC labels.length flat i j 0) +
          Real.exp (viewNLC labels.length flat i j 2)) ∧
    (C = 3 →
      (((predictMultilabelCore inputs labels flat C).getD i []).getD j default).score =
        Real.exp (viewNLC labels.length flat i j (C - 1)) /
          (Real.exp (viewNLC labels.length flat i j 0) +
            Real.exp (viewNLC labels.length flat i j (C - 1)))) := by
  have hmain : (((predictMultilabelCore inputs labels flat C).getD i []).getD j
      default).score =
      Real.exp (viewNLC labels.length flat i j 2) /
        (Real.exp (viewNLC labels.length flat i j 0) +
          Real.exp (viewNLC labels.length flat i j 2)) := by
    rw [predictMultilabelCore_getD _ _ _ _ hi hj]
    exact mlScore_of_three_le _ hC
  refine ⟨hmain, fun h3 => ?_⟩
  subst h3
  exact hmain

theorem C1_multilabel_witness :
    (((predictMultilabelCore ["a"] ["x"] (fun _ _ => (0 : ℝ)) 3).getD 0 []).getD 0
        default).score =
      Real.exp (viewNLC 1 (fun _ _ => (0 : ℝ)) 0 0 2) /
        (Real.exp (viewNLC 1 (fun _ _ => (0 : ℝ)) 0 0 0) +
          Real.exp (viewNLC 1 (fun _ _ => (0 : ℝ)) 0 0 2)) :=
  (C1_multilabel_two_way_softmax ["a"] ["x"] (fun _ _ => 0) 3 0 0
    (by decide) (by decide) (by decide)).1

/-- C1 counterexample: with `C = 4` classes, the score `predict_multilabel`
computes (two-way softmax between classes 0 and 2) differs from the claimed
two-way softmax between class 0 (contradiction) and the last class
`C - 1 = 3` (entailment): on logits `(0, 0, 0, 1)` the code yields `1/2`
while the claim demands `e / (1 + e)`. -/
theorem C1_last_class_cex :
    (((predictMultilabelCore ["input"] ["label"] cexFlat 4).getD 0 []).getD 0
        default).score ≠
      Real.exp (viewNLC 1 cexFlat 0 0 3) /
        (Real.exp (viewNLC 1 cexFlat 0 0 0) + Real.exp (viewNLC 1 cexFlat 0 0 3)) := by
  have hscore : (((predictMultilabelCore ["input"] ["label"] cexFlat 4).getD 0 []).getD 0
      default).score = 1 / 2 := by
    rw [predictMultilabelCore_getD _ _ _ _ (by decide) (by decide),
      mlScore_of_three_le _ (by omega)]
    norm_num [viewNLC, cexFlat, Real.exp_zero]
  have h3 : viewNLC 1 cexFlat 0 0 3 = 1 := by norm_num [viewNLC, cexFlat]
  have h0 : viewNLC 1 cexFlat 0 0 0 = 0 := by norm_num [viewNLC, cexFlat]
  rw [hscore, h3, h0, Real.exp_zero]
  have hlt : (1 : ℝ) < Real.exp 1 := by
    have h := Real.exp_lt_exp.mpr (show (0 : ℝ) < 1 by norm_num)
    rwa [Real.exp_zero] at h
  have hpos : (0 : ℝ) < 1 + Real.exp 1 := by positivity
  intro heq
  rw [div_eq_div_iff (by norm_num) (ne_of_gt hpos)] at heq
  linarith
